import Mathlib

/-!
Shallow embedding of the AHT20 sensor driver (`src/lib.rs`) and proofs of the
specification claims about it.

The driver talks to the sensor through two injected capabilities: an I2C bus
(blocking `write` / `write_read` at the fixed address `0x38`) and a millisecond
delay source.  We embed each operation as a pure function of an oracle that
gives the bus's response to each transaction the driver performs, and we track
the observable effects the claims talk about: whether the 7-byte payload read
was attempted, how many 10 ms delay calls were made, and how many status polls
were issued.  Machine integers (`u8`, `u32`) are modelled as `Nat` with
explicit `% 256` / masking where the source relies on width.
-/

set_option maxRecDepth 16384

namespace Aht20

/-- `const I2C_ADDRESS: u8 = 0x38;` (lib.rs line 23). -/
def I2C_ADDRESS : Nat := 0x38

/-- `StatusFlags::BUSY = (1 << 7)` (lib.rs line 27). -/
def busyFlag : Nat := 1 <<< 7

/-- The calibration-enable status flag, `(1 << 3)` (lib.rs line 30; named
`CALIBRATION_ENABLE` in the source). -/
def calEnableFlag : Nat := 1 <<< 3

/-- `bitflags`' `contains` for the masks the driver uses:
`bits & mask == mask`. -/
def contains (bits mask : Nat) : Bool := bits &&& mask == mask

/-- `enum Error<E>` (lib.rs lines 39-49). -/
inductive Error (E : Type) where
  /-- Device is not calibrated. -/
  | uncalibrated
  /-- Underlying bus error. -/
  | bus (e : E)
  /-- Checksum mismatch. -/
  | checksum
  /-- Max tries exceeded. -/
  | maxTriesExceeded
deriving DecidableEq, Repr

/-- A single bus transaction as issued by the driver: either a plain write of
`data` to `addr`, or a write of `data` followed by a read of `readLen` bytes. -/
inductive Txn where
  | write (addr : Nat) (data : List Nat)
  | writeRead (addr : Nat) (data : List Nat) (readLen : Nat)
deriving DecidableEq, Repr

/-- The transaction performed by `Aht20::status` (lib.rs line 113):
`self.i2c.write_read(I2C_ADDRESS, &[0u8], buf)` with `buf: [u8; 1]` — it
writes the single byte `0x00` and reads one byte back. -/
def statusReq : Txn := .writeRead I2C_ADDRESS [0x00] 1

/-- The byte the driver sees in its 1-byte status buffer, given the raw bytes
the bus produced (`buf` starts zeroed; only its first byte is used). -/
def statusByte (bs : List Nat) : Nat := bs.headD 0 % 256

/-- `Aht20::status` (lib.rs lines 111-116) as a function of the bus response
to `statusReq`: a bus error propagates, otherwise the single buffer byte is
wrapped as the status bitset.  No retry logic lives here. -/
def statusQuery {E : Type} (resp : Except E (List Nat)) : Except E Nat :=
  resp.map statusByte

/-- The transaction of the calibration-trigger write (lib.rs line 121). -/
def calibrateReq : Txn := .write I2C_ADDRESS [0xE1, 0x08, 0x00]

/-- The transaction of the trigger-measurement write (lib.rs line 160). -/
def triggerReq : Txn := .write I2C_ADDRESS [0xAC, 0x33, 0x00]

/-- The transaction of the 7-byte payload read (lib.rs line 177). -/
def payloadReq : Txn := .writeRead I2C_ADDRESS [0x00] 7

/-- One shift step of the CRC-8 used by `read`: MSB-first, polynomial `0x31`,
as configured by `CrcAlgo::<u8>::new(49, 8, 0xFF, 0x00, false)`
(lib.rs line 156). -/
def crcShift (c : Nat) : Nat :=
  if c &&& 0x80 == 0x80 then ((c <<< 1) ^^^ 0x31) % 256 else (c <<< 1) % 256

/-- Iterate `crcShift` over the 8 bits of a byte. -/
def crcBits : Nat → Nat → Nat
  | 0, c => c
  | k + 1, c => crcBits k (crcShift c)

/-- Fold one input byte into the CRC accumulator. -/
def crcByte (c b : Nat) : Nat := crcBits 8 ((c ^^^ b) % 256)

/-- The full CRC-8: width 8, poly `0x31`, initial value `0xFF`, final XOR
`0x00` (a no-op), no reflection. -/
def crc8 (bytes : List Nat) : Nat := bytes.foldl crcByte 0xFF

/-- Byte `i` of the driver's zero-initialised read buffer after the bus filled
it with `bs` (each entry clamped to `u8`). -/
def byteAt (bs : List Nat) (i : Nat) : Nat := bs.getD i 0 % 256

/-- Bus oracle for `Aht20::read`: the response to the trigger write, to the
`k`-th status query, and to the 7-byte payload read. -/
structure ReadBus (E : Type) where
  trigger : Except E Unit
  status : Nat → Except E (List Nat)
  payload : Except E (List Nat)

/-- Bus oracle for `Aht20::calibrate`: the response to the calibration-trigger
write and to the `k`-th status query. -/
structure CalBus (E : Type) where
  cmd : Except E Unit
  status : Nat → Except E (List Nat)

/-- `struct Humidity { h: u32 }` (lib.rs lines 58-60). -/
structure Humidity where
  h : Nat
deriving DecidableEq, Repr

/-- `Humidity::raw` (lib.rs lines 69-71). -/
def Humidity.raw (x : Humidity) : Nat := x.h

/-- `struct Temperature { t: u32 }` (lib.rs lines 75-77). -/
structure Temperature where
  t : Nat
deriving DecidableEq, Repr

/-- `Temperature::raw` (lib.rs lines 86-88). -/
def Temperature.raw (x : Temperature) : Nat := x.t

/-- Outcome of `Aht20::read`: a humidity/temperature pair, a driver error, or
divergence (the busy-wait loop never terminated; only reachable as the
out-of-fuel marker of the embedding). -/
inductive ReadOut (E : Type) where
  | ok (hum : Humidity) (temp : Temperature)
  | err (e : Error E)
  | diverged
deriving DecidableEq, Repr

/-- Result of one run of `read`'s busy-wait loop: either a bus error from a
status query, or `none` when the fuel ran out, or `some (n, maxTries)` with
the index of the next unused status response and the final counter value;
plus the number of delay calls and status polls made. -/
structure RLoopOut (E : Type) where
  out : Except E (Option (Nat × Nat))
  delays : Nat
  polls : Nat
deriving Repr

/-- The busy-wait loop of `Aht20::read` (lib.rs lines 165-169):

`let mut max_tries = 5u8;`
`while self.status()?.contains(StatusFlags::BUSY) || max_tries == 0 {`
`    delay.delay_ms(10); max_tries -= 1; }`

The `u8` decrement wraps, so it is modelled as `(maxTries + 255) % 256`.  The
loop need not terminate, hence the explicit `fuel`. -/
def readLoop {E : Type} (status : Nat → Except E (List Nat)) :
    Nat → Nat → Nat → RLoopOut E
  | 0, _, _ => ⟨.ok none, 0, 0⟩
  | fuel + 1, n, maxTries =>
    match statusQuery (status n) with
    | .error e => ⟨.error e, 0, 1⟩
    | .ok b =>
      if contains b busyFlag || maxTries == 0 then
        let r := readLoop status fuel (n + 1) ((maxTries + 255) % 256)
        ⟨r.out, r.delays + 1, r.polls + 1⟩
      else ⟨.ok (some (n + 1, maxTries)), 0, 1⟩

/-- What `read` does once it has the payload response (lib.rs lines 176-196):
propagate a bus error, reject a CRC mismatch with `Checksum`, reject a clear
calibration flag with `Uncalibrated`, else unpack the two 20-bit raw values. -/
def readVerdict {E : Type} (resp : Except E (List Nat)) : ReadOut E :=
  match resp with
  | .error e => .err (.bus e)
  | .ok bs =>
    if crc8 [byteAt bs 0, byteAt bs 1, byteAt bs 2, byteAt bs 3, byteAt bs 4,
        byteAt bs 5] != byteAt bs 6 then
      .err .checksum
    else if ! contains (byteAt bs 0) calEnableFlag then .err .uncalibrated
    else
      .ok ⟨(byteAt bs 1 <<< 12) ||| (byteAt bs 2 <<< 4) ||| (byteAt bs 3 >>> 4)⟩
        ⟨((byteAt bs 3 &&& 0x0F) <<< 16) ||| (byteAt bs 4 <<< 8) ||| byteAt bs 5⟩

/-- Observable result of `Aht20::read`: the outcome, whether the 7-byte
payload `write_read` was issued, and the delay/poll counts. -/
structure ReadResult (E : Type) where
  out : ReadOut E
  payloadAttempted : Bool
  delays : Nat
  polls : Nat
deriving Repr

/-- `Aht20::read` (lib.rs lines 154-197): trigger write, busy-wait with a
5-try `u8` counter, the `if max_tries == 0` check, then the payload read and
its checks. -/
def read {E : Type} (bus : ReadBus E) (fuel : Nat) : ReadResult E :=
  match bus.trigger with
  | .error e => ⟨.err (.bus e), false, 0, 0⟩
  | .ok _ =>
    match readLoop bus.status fuel 0 5 with
    | ⟨.error e, d, p⟩ => ⟨.err (.bus e), false, d, p⟩
    | ⟨.ok none, d, p⟩ => ⟨.diverged, false, d, p⟩
    | ⟨.ok (some (_, mt)), d, p⟩ =>
      if mt == 0 then ⟨.err .maxTriesExceeded, false, d, p⟩
      else ⟨readVerdict bus.payload, true, d, p⟩

/-- Result of one run of `calibrate`'s busy-wait loop: a bus error, or `none`
when the counter hit zero (caller returns `Uncalibrated`), or `some n` with
the index of the next unused status response; plus delay and poll counts. -/
structure CalLoopOut (E : Type) where
  out : Except E (Option Nat)
  delays : Nat
  polls : Nat
deriving Repr

/-- The busy-wait loop of `Aht20::calibrate` (lib.rs lines 124-132):

`let mut max_tries = 10u8;`
`while self.status()?.contains(StatusFlags::BUSY) {`
`    delay.delay_ms(10); max_tries -= 1;`
`    if max_tries == 0 { return Err(Error::Uncalibrated); } }`

Since the zero test directly follows the decrement and the counter starts at
10, it takes only the values 10,9,...,1 before a decrement and never wraps;
the recursion is therefore structural on `tries`, split on the counter value:
at `1` a busy poll drives the counter to 0 and the loop returns
`Err(Uncalibrated)` (modelled as `.ok none`); at `t + 2` it keeps polling.
The `0` case is unreachable from `calibrate` and kept only for totality. -/
def calLoop {E : Type} (status : Nat → Except E (List Nat)) :
    Nat → Nat → CalLoopOut E
  | 0, n =>
    match statusQuery (status n) with
    | .error e => ⟨.error e, 0, 1⟩
    | .ok b =>
      if contains b busyFlag then ⟨.ok none, 1, 1⟩
      else ⟨.ok (some (n + 1)), 0, 1⟩
  | 1, n =>
    match statusQuery (status n) with
    | .error e => ⟨.error e, 0, 1⟩
    | .ok b =>
      if contains b busyFlag then ⟨.ok none, 1, 1⟩
      else ⟨.ok (some (n + 1)), 0, 1⟩
  | t + 2, n =>
    match statusQuery (status n) with
    | .error e => ⟨.error e, 0, 1⟩
    | .ok b =>
      if contains b busyFlag then
        let r := calLoop status (t + 1) (n + 1)
        ⟨r.out, r.delays + 1, r.polls + 1⟩
      else ⟨.ok (some (n + 1)), 0, 1⟩

/-- Observable result of `Aht20::calibrate`: the outcome plus delay and
status-poll counts. -/
structure CalResult (E : Type) where
  res : Except (Error E) Unit
  delays : Nat
  polls : Nat
deriving Repr

/-- `Aht20::calibrate` (lib.rs lines 119-140): calibration-trigger write,
busy-wait with a 10-try counter (exhaustion returns `Uncalibrated`), then one
confirming status query whose clear calibration flag also returns
`Uncalibrated`. -/
def calibrate {E : Type} (bus : CalBus E) : CalResult E :=
  match bus.cmd with
  | .error e => ⟨.error (.bus e), 0, 0⟩
  | .ok _ =>
    match calLoop bus.status 10 0 with
    | ⟨.error e, d, p⟩ => ⟨.error (.bus e), d, p⟩
    | ⟨.ok none, d, p⟩ => ⟨.error .uncalibrated, d, p⟩
    | ⟨.ok (some n), d, p⟩ =>
      match statusQuery (bus.status n) with
      | .error e => ⟨.error (.bus e), d, p + 1⟩
      | .ok b =>
        if ! contains b calEnableFlag then ⟨.error .uncalibrated, d, p + 1⟩
        else ⟨.ok (), d, p + 1⟩

/-- A status response whose byte has the BUSY bit set. -/
def busyResp {E : Type} (resp : Except E (List Nat)) : Prop :=
  ∃ bs, resp = .ok bs ∧ contains (statusByte bs) busyFlag = true

/-- A read bus whose trigger write succeeds and whose status polls all report
BUSY (byte `0x80`), forever. -/
def allBusyBus : ReadBus Unit := ⟨.ok (), fun _ => .ok [0x80], .ok []⟩

/-- A read bus that immediately reports not-busy and delivers the spec's test
vector payload `[0x18, 0x19, 0x99, 0x9A, 0x66, 0x66]` with its correct CRC. -/
def goodBus : ReadBus Unit :=
  ⟨.ok (), fun _ => .ok [0x18], .ok [0x18, 0x19, 0x99, 0x9A, 0x66, 0x66, 0x57]⟩

/-- A read bus delivering a payload whose checksum byte is wrong. -/
def badCrcBus : ReadBus Unit :=
  ⟨.ok (), fun _ => .ok [0x18], .ok [0x18, 0, 0, 0, 0, 0, 0]⟩

/-- A read bus delivering a payload with a wrong checksum byte and a clear
calibration flag in payload byte 0. -/
def badCrcNoCalBus : ReadBus Unit :=
  ⟨.ok (), fun _ => .ok [0x00], .ok [0, 0, 0, 0, 0, 0, 1]⟩

/-- A read bus delivering a payload with a correct checksum (the CRC of six
zero bytes is `0x6A`) but a clear calibration flag. -/
def uncalBus : ReadBus Unit :=
  ⟨.ok (), fun _ => .ok [0x00], .ok [0, 0, 0, 0, 0, 0, 0x6A]⟩

/-- A read bus whose trigger write fails. -/
def trigFailBus : ReadBus Unit := ⟨.error (), fun _ => .ok [0x18], .ok []⟩

/-- A read bus whose status queries fail. -/
def statusFailBus : ReadBus Unit := ⟨.ok (), fun _ => .error (), .ok []⟩

/-- A read bus whose payload read fails. -/
def payloadFailBus : ReadBus Unit := ⟨.ok (), fun _ => .ok [0x18], .error ()⟩

/-- A calibrate bus whose status polls all report BUSY (byte `0x88`). -/
def calBusyBus : CalBus Unit := ⟨.ok (), fun _ => .ok [0x88]⟩

/-- A calibrate bus whose status polls all return `0x18` (calibration enabled,
not busy). -/
def calOkBus : CalBus Unit := ⟨.ok (), fun _ => .ok [0x18]⟩

/-- A calibrate bus whose status polls all return `0x00` (not busy, but
calibration not enabled). -/
def calNoCalBus : CalBus Unit := ⟨.ok (), fun _ => .ok [0x00]⟩

/-! ## Helper lemmas -/

/-- The busy-wait loop of `read` can only exit with a nonzero counter: the
loop condition `busy || max_tries == 0` is false on exit, so in particular
`max_tries != 0` there. -/
theorem readLoop_exit_ne_zero {E : Type} (status : Nat → Except E (List Nat)) :
    ∀ fuel n mt k mt',
      (readLoop status fuel n mt).out = Except.ok (some (k, mt')) → mt' ≠ 0 := by
  intro fuel
  induction fuel with
  | zero => intro n mt k mt' h; simp [readLoop] at h
  | succ f ih =>
    intro n mt k mt' h
    simp only [readLoop] at h
    split at h
    · simp at h
    · split at h
      · exact ih _ _ _ _ h
      · next hc =>
        simp only [Except.ok.injEq, Option.some.injEq, Prod.mk.injEq] at h
        simp only [Bool.or_eq_true, beq_iff_eq, not_or] at hc
        obtain ⟨-, hmt⟩ := h
        obtain ⟨-, hc2⟩ := hc
        omega

/-- Case analysis on `read`: either the payload read was attempted and the
outcome is `readVerdict` of the payload response, or it was not attempted and
the outcome is a bus error or divergence (never `MaxTriesExceeded`, by
`readLoop_exit_ne_zero`). -/
theorem read_out_cases {E : Type} (bus : ReadBus E) (fuel : Nat) :
    ((read bus fuel).payloadAttempted = true ∧
      (read bus fuel).out = readVerdict bus.payload) ∨
    ((read bus fuel).payloadAttempted = false ∧
      ((∃ e, (read bus fuel).out = .err (.bus e)) ∨
        (read bus fuel).out = .diverged)) := by
  cases htr : bus.trigger with
  | error e =>
    refine Or.inr ⟨?_, Or.inl ⟨e, ?_⟩⟩ <;> simp [read, htr]
  | ok u =>
    cases u
    rcases hL : readLoop bus.status fuel 0 5 with ⟨lout, d, p⟩
    rcases lout with e | o
    · refine Or.inr ⟨?_, Or.inl ⟨e, ?_⟩⟩ <;> simp [read, htr, hL]
    · rcases o with - | ⟨k, mt⟩
      · refine Or.inr ⟨?_, Or.inr ?_⟩ <;> simp [read, htr, hL]
      · have hne : mt ≠ 0 :=
          readLoop_exit_ne_zero bus.status fuel 0 5 k mt (by rw [hL])
        refine Or.inl ⟨?_, ?_⟩ <;> simp [read, htr, hL, beq_iff_eq, hne]

/-- A successful `read` outcome comes from an error-free payload response
whose checksum verified and whose calibration flag was set, and the two raw
values are the bit-rearrangements of payload bytes 1-5. -/
theorem read_ok_shape {E : Type} (bus : ReadBus E) (fuel : Nat)
    (hu : Humidity) (te : Temperature)
    (h : (read bus fuel).out = .ok hu te) :
    ∃ bs, bus.payload = .ok bs ∧
      hu = ⟨(byteAt bs 1 <<< 12) ||| (byteAt bs 2 <<< 4) ||| (byteAt bs 3 >>> 4)⟩ ∧
      te = ⟨((byteAt bs 3 &&& 0x0F) <<< 16) ||| (byteAt bs 4 <<< 8) ||| byteAt bs 5⟩ ∧
      crc8 [byteAt bs 0, byteAt bs 1, byteAt bs 2, byteAt bs 3, byteAt bs 4,
        byteAt bs 5] = byteAt bs 6 ∧
      contains (byteAt bs 0) calEnableFlag = true := by
  rcases read_out_cases bus fuel with ⟨-, hout⟩ | ⟨-, ⟨e, hout⟩ | hout⟩
  · cases hp : bus.payload with
    | error e =>
      rw [hout, hp] at h
      simp [readVerdict] at h
    | ok bs =>
      rw [hout, hp] at h
      simp only [readVerdict] at h
      by_cases hcrc : (crc8 [byteAt bs 0, byteAt bs 1, byteAt bs 2,
          byteAt bs 3, byteAt bs 4, byteAt bs 5] != byteAt bs 6) = true
      · rw [if_pos hcrc] at h; simp at h
      · rw [if_neg hcrc] at h
        by_cases hcal : (! contains (byteAt bs 0) calEnableFlag) = true
        · rw [if_pos hcal] at h; simp at h
        · rw [if_neg hcal] at h
          obtain ⟨h1, h2⟩ := ReadOut.ok.inj h
          refine ⟨bs, rfl, h1.symm, h2.symm, ?_, ?_⟩
          · simpa [bne_iff_ne] using hcrc
          · simpa using hcal
  · rw [hout] at h; simp at h
  · rw [hout] at h; simp at h

/-- If all status polls report BUSY forever, the busy-wait loop of `read`
never exits: for every fuel it is still running. -/
theorem readLoop_all_busy {E : Type} (status : Nat → Except E (List Nat))
    (hb : ∀ k, busyResp (status k)) :
    ∀ fuel n mt, (readLoop status fuel n mt).out = Except.ok none := by
  intro fuel
  induction fuel with
  | zero => intro n mt; rfl
  | succ f ih =>
    intro n mt
    obtain ⟨bs, hbs, hbusy⟩ := hb n
    simp only [readLoop, statusQuery, hbs, Except.map, hbusy, Bool.true_or,
      if_true]
    exact ih (n + 1) _

/-- If the first `tries` status polls all report BUSY, the busy-wait loop of
`calibrate` exhausts its counter, making exactly `tries` polls and `tries`
delay calls. -/
theorem calLoop_all_busy {E : Type} (status : Nat → Except E (List Nat)) :
    ∀ tries n, 1 ≤ tries → (∀ k, k < tries → busyResp (status (n + k))) →
      calLoop status tries n = ⟨.ok none, tries, tries⟩ := by
  intro tries
  induction tries with
  | zero => intro n h; omega
  | succ t ih =>
    intro n h1 hb
    obtain ⟨bs, hbs, hbusy⟩ := hb 0 (Nat.succ_pos t)
    rw [Nat.add_zero] at hbs
    cases t with
    | zero =>
      simp only [calLoop, statusQuery, hbs, Except.map, hbusy, if_true]
    | succ t' =>
      have hb' : ∀ k, k < t' + 1 → busyResp (status (n + 1 + k)) := by
        intro k hk
        have hx := hb (k + 1) (by omega)
        rwa [show n + (k + 1) = n + 1 + k from by omega] at hx
      simp only [calLoop, statusQuery, hbs, Except.map, hbusy, if_true]
      rw [ih (n + 1) (Nat.succ_pos t') hb']

/-- If the trigger write is acknowledged and the busy-wait loop runs out of
fuel, `read` is still looping: it diverges and the payload read was not
attempted. -/
theorem read_loop_none {E : Type} (bus : ReadBus E) (fuel : Nat)
    (ht : bus.trigger = .ok ())
    (h : (readLoop bus.status fuel 0 5).out = Except.ok none) :
    (read bus fuel).out = .diverged ∧
      (read bus fuel).payloadAttempted = false := by
  rcases hL : readLoop bus.status fuel 0 5 with ⟨lout, d, p⟩
  rw [hL] at h
  have h' : lout = Except.ok none := h
  subst h'
  constructor <;> simp [read, ht, hL]

/-- Each byte of the driver's read buffer is a `u8`. -/
theorem byteAt_lt (bs : List Nat) (i : Nat) : byteAt bs i < 256 :=
  Nat.mod_lt _ (by norm_num)

/-- Bitwise or preserves a power-of-two bound. -/
theorem or_lt_twoPow {x y n : Nat} (hx : x < 2 ^ n) (hy : y < 2 ^ n) :
    x ||| y < 2 ^ n :=
  Nat.bitwise_lt hx hy

/-- The humidity unpacking expression is a 20-bit value. -/
theorem rawHum_lt (b1 b2 b3 : Nat) (h1 : b1 < 256) (h2 : b2 < 256)
    (h3 : b3 < 256) :
    (b1 <<< 12) ||| (b2 <<< 4) ||| (b3 >>> 4) < 2 ^ 20 := by
  have hp : (2 : Nat) ^ 20 = 1048576 := by norm_num
  have e1 : b1 <<< 12 = b1 * 4096 := by rw [Nat.shiftLeft_eq]
  have e2 : b2 <<< 4 = b2 * 16 := by rw [Nat.shiftLeft_eq]
  have e3 : b3 >>> 4 = b3 / 16 := by rw [Nat.shiftRight_eq_div_pow]
  apply or_lt_twoPow
  · apply or_lt_twoPow
    · rw [hp, e1]; omega
    · rw [hp, e2]; omega
  · rw [hp, e3]; omega

/-- The temperature unpacking expression is a 20-bit value. -/
theorem rawTemp_lt (b3 b4 b5 : Nat) (h4 : b4 < 256) (h5 : b5 < 256) :
    ((b3 &&& 0x0F) <<< 16) ||| (b4 <<< 8) ||| b5 < 2 ^ 20 := by
  have hp : (2 : Nat) ^ 20 = 1048576 := by norm_num
  have ha : b3 &&& 0x0F ≤ 0x0F := @Nat.and_le_right b3 0x0F
  have e1 : (b3 &&& 0x0F) <<< 16 = (b3 &&& 0x0F) * 65536 := by
    rw [Nat.shiftLeft_eq]
  have e2 : b4 <<< 8 = b4 * 256 := by rw [Nat.shiftLeft_eq]
  apply or_lt_twoPow
  · apply or_lt_twoPow
    · rw [hp, e1]; omega
    · rw [hp, e2]; omega
  · rw [hp]; omega

/-! ## Claim theorems -/

/-- C1: the claim says that when every status poll reports BUSY until the
5-iteration retry budget is exhausted, `read` returns `MaxTriesExceeded` and
no payload read is attempted.  The code contradicts this: with the trigger
acknowledged and every status poll answering BUSY (byte `0x80`), the loop
condition `busy || max_tries == 0` stays true, the wrapping `u8` counter
steps past zero, and `read` never terminates — for every fuel it is still
looping and has never attempted the 7-byte payload read, so it never returns
`MaxTriesExceeded`. -/
theorem read_all_busy_diverges : ∀ fuel : Nat,
    (read allBusyBus fuel).out = ReadOut.diverged ∧
    (read allBusyBus fuel).payloadAttempted = false := by
  intro fuel
  exact read_loop_none allBusyBus fuel rfl
    (readLoop_all_busy allBusyBus.status (fun k => ⟨[0x80], rfl, by decide⟩)
      fuel 0 5)

/-- C2: `read` can never return `MaxTriesExceeded`: the busy-wait loop
`while busy || max_tries == 0` (with the `u8` counter wrapping mod 2^8) only
exits in a state where the device is not busy and the counter is nonzero, so
the `if max_tries == 0` error branch after the loop is unreachable for every
bus oracle — every sequence of status responses, with or without bus
errors. -/
theorem read_never_maxTriesExceeded {E : Type} (bus : ReadBus E)
    (fuel : Nat) :
    (read bus fuel).out ≠ ReadOut.err Error.maxTriesExceeded := by
  rcases read_out_cases bus fuel with ⟨-, hout⟩ | ⟨-, ⟨e, hout⟩ | hout⟩ <;>
    rw [hout]
  · cases hp : bus.payload with
    | error e => simp [readVerdict]
    | ok bs =>
      simp only [readVerdict]
      by_cases hcrc : (crc8 [byteAt bs 0, byteAt bs 1, byteAt bs 2,
          byteAt bs 3, byteAt bs 4, byteAt bs 5] != byteAt bs 6) = true
      · rw [if_pos hcrc]; simp
      · rw [if_neg hcrc]
        by_cases hcal : (! contains (byteAt bs 0) calEnableFlag) = true
        · rw [if_pos hcal]; simp
        · rw [if_neg hcal]; simp
  · simp
  · simp

/-- Witness for C2 at a concrete bus. -/
theorem read_never_maxTriesExceeded_witness :
    (read goodBus 1).out ≠ ReadOut.err Error.maxTriesExceeded :=
  read_never_maxTriesExceeded goodBus 1

/-- C3 counterexample: the claim says the status query writes the single
status-request byte `0x71`; in the code (lib.rs line 113) the written byte is
`0x00`, so the transaction is not `writeRead 0x38 [0x71] 1`. -/
theorem statusReq_counterexample : statusReq ≠ Txn.writeRead 0x38 [0x71] 1 :=
  by decide

/-- C3 (amended): the internal status query performs the single transaction
`writeRead 0x38 [0x00] 1` — it writes the single byte `0x00` (not `0x71`) to
the fixed peripheral address, reads back exactly 1 byte, and interprets that
byte as the StatusByte bitset; a successful response is passed through
unchanged and an error response propagates, with no retry performed. -/
theorem status_query_spec :
    statusReq = Txn.writeRead 0x38 [0x00] 1 ∧
    (∀ bs : List Nat,
      statusQuery (Except.ok bs : Except Unit (List Nat)) =
        Except.ok (statusByte bs)) ∧
    (∀ e : Unit,
      statusQuery (Except.error e : Except Unit (List Nat)) =
        Except.error e) :=
  ⟨rfl, fun _ => rfl, fun _ => rfl⟩

/-- C4: if the calibration-trigger write is acknowledged and the status query
reports BUSY on 10 consecutive polls, `calibrate` returns `Uncalibrated` (an
error distinct from `MaxTriesExceeded`, which it can never produce) after
exactly 10 polls and 10 delay calls — it does not poll further. -/
theorem calibrate_busy_ten {E : Type} (bus : CalBus E)
    (hcmd : bus.cmd = .ok ())
    (hb : ∀ k, k < 10 → busyResp (bus.status k)) :
    calibrate bus = ⟨.error .uncalibrated, 10, 10⟩ := by
  have hl : calLoop bus.status 10 0 = ⟨.ok none, 10, 10⟩ :=
    calLoop_all_busy bus.status 10 0 (by omega)
      (fun k hk => by simpa using hb k hk)
  unfold calibrate
  rw [hcmd, hl]

/-- Witness for C4: a bus answering status byte `0x88` (BUSY set) forever. -/
theorem calibrate_busy_ten_witness :
    calibrate calBusyBus = ⟨.error .uncalibrated, 10, 10⟩ :=
  calibrate_busy_ten calBusyBus rfl (fun _ _ => ⟨[0x88], rfl, by decide⟩)

/-- C5: (a) once the busy-wait loop of `calibrate` exits with BUSY clear, the
driver issues exactly one further status query and returns `Uncalibrated`
when the calibration-enable flag is unset in that response; (b) when every
status query returns byte `0x18` (calibration enabled, not busy), `calibrate`
succeeds after the trigger write with no delay call ever made, having used
only the two status queries. -/
theorem calibrate_confirm_spec {E : Type} (bus : CalBus E) :
    (∀ k bs, bus.cmd = .ok () →
      (calLoop bus.status 10 0).out = Except.ok (some k) →
      bus.status k = .ok bs →
      contains (statusByte bs) calEnableFlag = false →
      (calibrate bus).res = .error .uncalibrated ∧
      (calibrate bus).polls = (calLoop bus.status 10 0).polls + 1) ∧
    (bus.cmd = .ok () → (∀ n, bus.status n = .ok [0x18]) →
      calibrate bus = ⟨.ok (), 0, 2⟩) := by
  constructor
  · intro k bs hcmd hexit hst hcal
    rcases hL : calLoop bus.status 10 0 with ⟨lout, d, p⟩
    rw [hL] at hexit
    have h' : lout = Except.ok (some k) := hexit
    subst h'
    have hsq : statusQuery (bus.status k) = .ok (statusByte bs) := by
      rw [hst]; rfl
    have hcal' : (! contains (statusByte bs) calEnableFlag) = true := by
      rw [hcal]; rfl
    refine ⟨?_, ?_⟩ <;> simp [calibrate, hcmd, hL, hsq, hcal']
  · intro hcmd hst
    have hfun : bus.status = fun _ => Except.ok [0x18] := funext hst
    unfold calibrate
    rw [hcmd, hfun]
    rfl

/-- Witness for C5: part (a) at a bus whose status bytes are all `0x00`
(not busy, calibration flag clear), part (b) at a bus whose status bytes are
all `0x18`. -/
theorem calibrate_confirm_spec_witness :
    ((calibrate calNoCalBus).res = .error .uncalibrated ∧
      (calibrate calNoCalBus).polls =
        (calLoop calNoCalBus.status 10 0).polls + 1) ∧
    calibrate calOkBus = ⟨.ok (), 0, 2⟩ :=
  ⟨(calibrate_confirm_spec calNoCalBus).1 1 [0x00] rfl rfl rfl (by decide),
    (calibrate_confirm_spec calOkBus).2 rfl (fun _ => rfl)⟩

/-- C6: for every 7-byte payload received by `read` (the payload read was
attempted and the bus answered with bytes `bs`), if the CRC-8 (width 8, poly
`0x31`, init `0xFF`, final XOR `0x00`, no reflection) of payload bytes 0-5
differs from payload byte 6, then `read` returns `Checksum` — in particular
it produces no humidity or temperature value. -/
theorem read_checksum_reject {E : Type} (bus : ReadBus E) (fuel : Nat)
    (bs : List Nat)
    (hp : bus.payload = .ok bs)
    (ha : (read bus fuel).payloadAttempted = true)
    (hc : crc8 [byteAt bs 0, byteAt bs 1, byteAt bs 2, byteAt bs 3,
      byteAt bs 4, byteAt bs 5] ≠ byteAt bs 6) :
    (read bus fuel).out = ReadOut.err Error.checksum := by
  rcases read_out_cases bus fuel with ⟨-, hout⟩ | ⟨hpa, -⟩
  · rw [hout, hp]
    simp only [readVerdict]
    rw [if_pos (by simpa [bne_iff_ne] using hc)]
  · rw [hpa] at ha; simp at ha

/-- Witness for C6: a payload whose checksum byte `0x00` differs from the
CRC-8 of its first six bytes (`0x35`). -/
theorem read_checksum_reject_witness :
    (read badCrcBus 1).out = ReadOut.err Error.checksum :=
  read_checksum_reject badCrcBus 1 [0x18, 0, 0, 0, 0, 0, 0] rfl (by decide)
    (by decide)

/-- C7: failure ordering in `read`.  Bus errors propagate first: a failing
trigger write, a failing status query in the busy-wait, or a failing payload
read each yield `Bus e`.  For a received payload with a wrong checksum and a
clear calibration flag the result is `Checksum`, never `Uncalibrated`; and
`Uncalibrated` can only arise from a payload whose checksum verifies. -/
theorem read_failure_ordering {E : Type} (bus : ReadBus E) (fuel : Nat) :
    (∀ e, bus.trigger = .error e →
      (read bus fuel).out = .err (.bus e)) ∧
    (∀ e, bus.trigger = .ok () →
      (readLoop bus.status fuel 0 5).out = .error e →
      (read bus fuel).out = .err (.bus e)) ∧
    (∀ e, (read bus fuel).payloadAttempted = true →
      bus.payload = .error e →
      (read bus fuel).out = .err (.bus e)) ∧
    (∀ bs, (read bus fuel).payloadAttempted = true →
      bus.payload = .ok bs →
      crc8 [byteAt bs 0, byteAt bs 1, byteAt bs 2, byteAt bs 3, byteAt bs 4,
        byteAt bs 5] ≠ byteAt bs 6 →
      contains (byteAt bs 0) calEnableFlag = false →
      (read bus fuel).out = .err .checksum) ∧
    ((read bus fuel).out = .err .uncalibrated →
      ∃ bs, bus.payload = .ok bs ∧
        crc8 [byteAt bs 0, byteAt bs 1, byteAt bs 2, byteAt bs 3, byteAt bs 4,
          byteAt bs 5] = byteAt bs 6) := by
  refine ⟨?_, ?_, ?_, ?_, ?_⟩
  · intro e htr
    simp [read, htr]
  · intro e htr hl
    rcases hL : readLoop bus.status fuel 0 5 with ⟨lout, d, p⟩
    rw [hL] at hl
    have h' : lout = Except.error e := hl
    subst h'
    simp [read, htr, hL]
  · intro e ha hp
    rcases read_out_cases bus fuel with ⟨-, hout⟩ | ⟨hpa, -⟩
    · rw [hout, hp]; rfl
    · rw [hpa] at ha; simp at ha
  · intro bs ha hp hcrc hcal
    rcases read_out_cases bus fuel with ⟨-, hout⟩ | ⟨hpa, -⟩
    · rw [hout, hp]
      simp only [readVerdict]
      rw [if_pos (by simpa [bne_iff_ne] using hcrc)]
    · rw [hpa] at ha; simp at ha
  · intro h
    rcases read_out_cases bus fuel with ⟨-, hout⟩ | ⟨-, ⟨e, hout⟩ | hout⟩
    · rw [hout] at h
      cases hp : bus.payload with
      | error e => rw [hp] at h; simp [readVerdict] at h
      | ok bs =>
        rw [hp] at h
        simp only [readVerdict] at h
        by_cases hcrc : (crc8 [byteAt bs 0, byteAt bs 1, byteAt bs 2,
            byteAt bs 3, byteAt bs 4, byteAt bs 5] != byteAt bs 6) = true
        · rw [if_pos hcrc] at h; simp at h
        · exact ⟨bs, rfl, by simpa [bne_iff_ne] using hcrc⟩
    · rw [hout] at h; simp at h
    · rw [hout] at h; simp at h

/-- Witness for C7: each conjunct exercised at a concrete bus — a failing
trigger write, failing status queries, a failing payload read, a payload with
a wrong checksum and clear calibration flag, and an `Uncalibrated` outcome
whose payload checksum must therefore verify. -/
theorem read_failure_ordering_witness :
    (read trigFailBus 1).out = .err (.bus ()) ∧
    (read statusFailBus 1).out = .err (.bus ()) ∧
    (read payloadFailBus 1).out = .err (.bus ()) ∧
    (read badCrcNoCalBus 1).out = .err .checksum ∧
    (∃ bs, uncalBus.payload = Except.ok bs ∧
      crc8 [byteAt bs 0, byteAt bs 1, byteAt bs 2, byteAt bs 3, byteAt bs 4,
        byteAt bs 5] = byteAt bs 6) :=
  ⟨(read_failure_ordering trigFailBus 1).1 () rfl,
    (read_failure_ordering statusFailBus 1).2.1 () rfl rfl,
    (read_failure_ordering payloadFailBus 1).2.2.1 () (by decide) rfl,
    (read_failure_ordering badCrcNoCalBus 1).2.2.2.1 [0, 0, 0, 0, 0, 0, 1]
      (by decide) rfl (by decide) (by decide),
    (read_failure_ordering uncalBus 1).2.2.2.2 (by decide)⟩

/-- C8: for every successful `read` with payload bytes `b0..b6`, the returned
raw humidity equals `(b1 <<< 12) ||| (b2 <<< 4) ||| (b3 >>> 4)` and the
returned raw temperature equals
`((b3 &&& 0x0F) <<< 16) ||| (b4 <<< 8) ||| b5`, exact bit rearrangements. -/
theorem read_unpacking {E : Type} (bus : ReadBus E) (fuel : Nat)
    (hu : Humidity) (te : Temperature)
    (h : (read bus fuel).out = .ok hu te) :
    ∃ bs, bus.payload = .ok bs ∧
      hu.raw =
        (byteAt bs 1 <<< 12) ||| (byteAt bs 2 <<< 4) ||| (byteAt bs 3 >>> 4) ∧
      te.raw =
        ((byteAt bs 3 &&& 0x0F) <<< 16) ||| (byteAt bs 4 <<< 8) ||| byteAt bs 5 := by
  obtain ⟨bs, hp, hhu, hte, -, -⟩ := read_ok_shape bus fuel hu te h
  exact ⟨bs, hp, by rw [hhu]; rfl, by rw [hte]; rfl⟩

/-- Witness for C8 at the spec's test vector
`[0x18, 0x19, 0x99, 0x9A, 0x66, 0x66]`: the unpacked raws are `0x19999` and
`0xA6666`. -/
theorem read_unpacking_witness :
    ∃ bs, goodBus.payload = Except.ok bs ∧
      Humidity.raw ⟨104857⟩ =
        (byteAt bs 1 <<< 12) ||| (byteAt bs 2 <<< 4) ||| (byteAt bs 3 >>> 4) ∧
      Temperature.raw ⟨681574⟩ =
        ((byteAt bs 3 &&& 0x0F) <<< 16) ||| (byteAt bs 4 <<< 8) ||| byteAt bs 5 :=
  read_unpacking goodBus 1 ⟨104857⟩ ⟨681574⟩ (by decide)

/-- C10: every `Humidity` and `Temperature` value produced by a successful
`read` has a `raw` value strictly below `2 ^ 20`: the unpacking expressions
over `u8` buffer bytes can only yield 20-bit results. -/
theorem read_raw_bounds {E : Type} (bus : ReadBus E) (fuel : Nat)
    (hu : Humidity) (te : Temperature)
    (h : (read bus fuel).out = .ok hu te) :
    hu.raw < 2 ^ 20 ∧ te.raw < 2 ^ 20 := by
  obtain ⟨bs, -, hhu, hte, -, -⟩ := read_ok_shape bus fuel hu te h
  subst hhu
  subst hte
  exact ⟨rawHum_lt _ _ _ (byteAt_lt bs 1) (byteAt_lt bs 2) (byteAt_lt bs 3),
    rawTemp_lt _ _ _ (byteAt_lt bs 4) (byteAt_lt bs 5)⟩

/-- Witness for C10 at the spec's test vector payload. -/
theorem read_raw_bounds_witness :
    Humidity.raw ⟨104857⟩ < 2 ^ 20 ∧ Temperature.raw ⟨681574⟩ < 2 ^ 20 :=
  read_raw_bounds goodBus 1 ⟨104857⟩ ⟨681574⟩ (by decide)

end Aht20
